import Mathlib

/-!
Verification development for the Risk-Alerts-Crawler repository.

The repository under review ships the Next.js frontend of a travel-risk alert
platform (`src/frontend/...`) together with its shared TypeScript type
definitions.  The FastAPI backend (scoring engine, report state machine, CSV
subscriber import, geographic dispatch matcher) is not part of the sources;
where a property depends on it, the corresponding definition is modelled from
the specification and marked as such in its doc comment.  Everything else is a
shallow embedding of the TypeScript source: TS `number` fields holding
integers become `Nat`/`Int`, fractional values become `Rat`, nullable fields
become `Option`, and `Record<K, V>` state objects become `K → Option V`.
-/

namespace RiskAlerts

/-! ### Enums and the Alert data model (src/unnamed/part_005) -/

/-- Embeds `AlertCategory` from the shared type definitions. -/
inductive AlertCategory
  | natural_disaster
  | political
  | crime
  | health
  | terrorism
  | civil_unrest
deriving DecidableEq

/-- Embeds `ReportStatus` from the shared type definitions. -/
inductive ReportStatus
  | draft
  | pending_approval
  | approved
  | sent
deriving DecidableEq

/-- One `{name, url}` source record.  The TS type uses
`Record<string, unknown>`; the embedded components only ever count records,
so the typed record of the spec is used as the element type. -/
structure SourceRecord where
  name : String
  url : String
deriving DecidableEq

/-- Embeds the type of the `sources` field of `Alert`:
`Record<string, unknown>[] | Record<string, unknown> | null`.  The union
admits three shapes: a list of records, one bare record, or null. -/
inductive SourcesPayload
  | list (records : List SourceRecord)
  | single (record : SourceRecord)
  | nullPayload
deriving DecidableEq

/-- True exactly on the list-shaped payloads; `Array.isArray` in TS. -/
def isListShape : SourcesPayload → Bool
  | .list _ => true
  | .single _ => false
  | .nullPayload => false

/-- Embeds `sourceCount` from
`src/frontend/src/components/alerts/alert-detail-dialog.tsx`:
`Array.isArray(alert.sources) ? alert.sources.length : alert.sources ? 1 : 0`.
A non-array object is truthy in JS (count 1); `null` is falsy (count 0). -/
def sourceCount : SourcesPayload → Nat
  | .list records => records.length
  | .single _ => 1
  | .nullPayload => 0

/-- The list normalization of a polymorphic sources payload: a list stays
itself, a single record becomes a one-element list, null becomes the empty
list.  This is the "single ordered list" view named by the spec. -/
def normalizeSources : SourcesPayload → List SourceRecord
  | .list records => records
  | .single record => [record]
  | .nullPayload => []

/-- Embeds the `Alert` interface from the shared type definitions.
`content` strings and ISO timestamps stay `String`; TS `number` coordinates
and scores become `Rat`; nullable fields become `Option`. -/
structure Alert where
  id : Nat
  title : String
  summary : String
  full_content : Option String
  category : AlertCategory
  severity : Int
  country : String
  region : Option String
  latitude : Option Rat
  longitude : Option Rat
  sources : SourcesPayload
  verified : Bool
  verification_score : Option Rat
  created_at : String
  updated_at : String
deriving DecidableEq

/-! ### Theorems for claim C1 -/

/-- C1, counterexample.  The claim says every Alert's `sources` payload is a
single ordered list by the time any downstream component reads it, so that no
consumer branches on its shape.  The frontend `Alert` type itself admits a
single bare record: the payload carrying just the GDACS source is not
list-shaped, and `AlertDetailDialog` branches on exactly this case
(`Array.isArray(alert.sources) ? ... : alert.sources ? 1 : 0`). -/
theorem C1_sources_counterexample :
    ¬ (∀ p : SourcesPayload, isListShape p = true) := by
  intro h
  have := h (SourcesPayload.single ⟨"GDACS", "https://www.gdacs.org"⟩)
  simp [isListShape] at this

/-- C1, amended.  The Alert `sources` payload reaching the frontend may be a
list of records, a single bare record, or null, and the alert detail dialog
branches on that shape; its source count agrees with the length of the
payload's list normalization (a list counts by its length, a single record
counts as 1, null counts as 0). -/
theorem C1_sourceCount_eq_normalized_length (p : SourcesPayload) :
    sourceCount p = (normalizeSources p).length := by
  cases p <;> rfl

/-! ### Coordinates and the map/dashboard consumers (claim C6) -/

/-- Embeds `hasCoordinates` from `src/frontend/src/lib/alert-utils.ts`:
`alert.latitude !== null && alert.longitude !== null`. -/
def hasCoordinates (alert : Alert) : Bool :=
  alert.latitude.isSome && alert.longitude.isSome

/-- Embeds the `plottedAlerts` filter of `AlertsMap`
(`src/frontend/src/components/layout/navbar.tsx`, second file section):
`alerts.filter(hasCoordinates)`. -/
def plottedAlerts (alerts : List Alert) : List Alert :=
  alerts.filter hasCoordinates

/-- Embeds the Plotted Alerts card of `DashboardPage` (src/unnamed/part_002):
`alerts.filter((alert) => alert.latitude !== null && alert.longitude !== null).length`. -/
def dashboardPlottedCount (alerts : List Alert) : Nat :=
  (alerts.filter (fun alert => alert.latitude.isSome && alert.longitude.isSome)).length

/-- Modelled from the spec: the both-or-neither invariant on
`latitude`/`longitude` ("nullable, both-or-neither", §3) is maintained by the
backend geocoding pipeline, which is not under src/; the frontend type alone
admits mixed null-ness. -/
def coordsBothOrNeither (alert : Alert) : Bool :=
  alert.latitude.isSome == alert.longitude.isSome

/-- C6.  `hasCoordinates` is true exactly when latitude and longitude are both
non-null; the map plots exactly the alerts satisfying it; the dashboard's
Plotted Alerts count equals the number of plotted alerts; and under the
spec-modelled both-or-neither invariant the two null checks coincide, so a
single presence check already decides plottability. -/
theorem C6_coordinates (alert : Alert) (alerts : List Alert) :
    (hasCoordinates alert = true ↔
      alert.latitude ≠ none ∧ alert.longitude ≠ none) ∧
    (∀ a : Alert, a ∈ plottedAlerts alerts ↔ a ∈ alerts ∧ hasCoordinates a = true) ∧
    dashboardPlottedCount alerts = (plottedAlerts alerts).length ∧
    (coordsBothOrNeither alert = true →
      (hasCoordinates alert = true ↔ alert.latitude.isSome = true)) := by
  refine ⟨?_, ?_, ?_, ?_⟩
  · simp [hasCoordinates, Option.isSome_iff_ne_none]
  · intro a
    simp [plottedAlerts, List.mem_filter]
  · rfl
  · intro h
    simp only [coordsBothOrNeither, beq_iff_eq] at h
    simp [hasCoordinates, h]

/-- A concrete alert with both coordinates present, used by witnesses. -/
def sampleAlert : Alert :=
  { id := 1, title := "Flood", summary := "s", full_content := none,
    category := .natural_disaster, severity := 3, country := "Thailand",
    region := none, latitude := some (27/2), longitude := some (100 : Rat),
    sources := .nullPayload, verified := false, verification_score := none,
    created_at := "2024-01-01", updated_at := "2024-01-01" }

/-- C6, witness: the theorem applied to the concrete `sampleAlert`,
discharging the both-or-neither hypothesis of the last conjunct there. -/
theorem C6_coordinates_witness :
    coordsBothOrNeither sampleAlert = true ∧
      (hasCoordinates sampleAlert = true ↔ sampleAlert.latitude.isSome = true) :=
  ⟨by decide, (C6_coordinates sampleAlert []).2.2.2 (by decide)⟩

/-! ### Severity: computation (spec-modelled) and its frontend consumers (claim C7) -/

/-- Embeds `SEVERITY_COLORS` from `src/frontend/src/lib/alert-utils.ts` as an
association list from severity to hex color. -/
def severityColorTable : List (Int × String) :=
  [(1, "#16a34a"), (2, "#65a30d"), (3, "#d97706"), (4, "#ea580c"), (5, "#dc2626")]

/-- Embeds `getSeverityColor` from `src/frontend/src/lib/alert-utils.ts`:
`SEVERITY_COLORS[severity] ?? "#6b7280"`. -/
def getSeverityColor (severity : Int) : String :=
  (((severityColorTable.find? (fun p => p.1 == severity)).map (fun p => p.2)).getD "#6b7280")

/-- Clamp of a raw severity value to the interval [1, 5]. -/
def clampSeverity (x : Rat) : Rat := min 5 (max 1 x)

/-- Round to the nearest integer with ties rounding up (toward higher
severity): the floor of `x + 1/2`. -/
def roundHalfUp (x : Rat) : Int := ⌊x + 1/2⌋

/-- Modelled from the spec: the backend Scoring Engine (§4.4) is not under
src/.  "Output is clamped to [1,5] and rounded to the nearest integer; ties
round up (toward higher severity)."  The category-specific keyword signals
feeding the raw value are implementation-tunable (§9), so the computation is
modelled as a function of the raw combined signal. -/
def computeSeverity (raw : Rat) : Int := roundHalfUp (clampSeverity raw)

theorem computeSeverity_bounds (raw : Rat) :
    1 ≤ computeSeverity raw ∧ computeSeverity raw ≤ 5 := by
  unfold computeSeverity roundHalfUp clampSeverity
  have e1 : ⌊(3/2 : Rat)⌋ = 1 := by
    rw [Int.floor_eq_iff]
    norm_num
  have e5 : ⌊(11/2 : Rat)⌋ = 5 := by
    rw [Int.floor_eq_iff]
    norm_num
  constructor
  · have h1 : (3/2 : Rat) ≤ min 5 (max 1 raw) + 1/2 := by
      have : (1 : Rat) ≤ min 5 (max 1 raw) := le_min (by norm_num) (le_max_left 1 raw)
      linarith
    calc (1 : Int) = ⌊(3/2 : Rat)⌋ := e1.symm
    _ ≤ ⌊min 5 (max 1 raw) + 1/2⌋ := Int.floor_le_floor h1
  · have h5 : min 5 (max 1 raw) + 1/2 ≤ (11/2 : Rat) := by
      have : min 5 (max 1 raw) ≤ (5 : Rat) := min_le_left _ _
      linarith
    calc ⌊min 5 (max 1 raw) + 1/2⌋ ≤ ⌊(11/2 : Rat)⌋ := Int.floor_le_floor h5
    _ = 5 := e5

/-- C7.  Every computed severity lies in {1,2,3,4,5}; the boundary value 3.5
rounds up to 4; and on every computed severity the frontend color lookup hits
a real entry of `SEVERITY_COLORS`, never the grey fallback. -/
theorem C7_severity_range (raw : Rat) :
    computeSeverity raw ∈ ([1, 2, 3, 4, 5] : List Int) ∧
    computeSeverity (7/2) = 4 ∧
    getSeverityColor (computeSeverity raw) ≠ "#6b7280" := by
  obtain ⟨h1, h5⟩ := computeSeverity_bounds raw
  refine ⟨?_, ?_, ?_⟩
  · interval_cases h : computeSeverity raw <;> simp
  · norm_num [computeSeverity, roundHalfUp, clampSeverity]
  · interval_cases h : computeSeverity raw <;> decide

/-! ### Report state machine (spec-modelled) and its frontend guards (claims C4 & C5) -/

/-- Embeds the `Report` interface from the shared type definitions
(`content_json` is omitted: none of the embedded components reads it). -/
structure Report where
  id : Nat
  title : String
  summary : Option String
  pdf_path : Option String
  status : ReportStatus
  created_by : Nat
  approved_by : Option Nat
  geographic_scope : Option String
  date_range_start : Option String
  date_range_end : Option String
  created_at : String
deriving DecidableEq

/-- Errors surfaced by the report state machine, from the spec's taxonomy. -/
inductive TransitionError
  | invalidStateTransition
  | noRecipients
deriving DecidableEq

/-- Modelled from the spec: the backend `submit` transition (§4.5) is not
under src/.  "`submit` (draft→pending_approval, fails if not draft)". -/
def submitTransition : ReportStatus → Except TransitionError ReportStatus
  | .draft => .ok .pending_approval
  | _ => .error .invalidStateTransition

/-- Modelled from the spec: the backend `dispatch` transition (§4.5) is not
under src/.  "`dispatch` (approved→sent, only after at least one recipient
list resolves to ≥1 subscriber — otherwise fails with `NoRecipients` and the
Report remains `approved`)"; from any other state it fails with
`InvalidStateTransition`. -/
def dispatchTransition (recipientCount : Nat) : ReportStatus → Except TransitionError ReportStatus
  | .approved => if recipientCount = 0 then .error .noRecipients else .ok .sent
  | _ => .error .invalidStateTransition

/-- Embeds `approvedReports` from `src/frontend/src/app/admin/page.tsx`:
`allReports.filter((report) => report.status === "approved")`. -/
def approvedReports (allReports : List Report) : List Report :=
  allReports.filter (fun report => report.status == ReportStatus.approved)

/-- Embeds the draft-only render guard of the Submit button in
`src/frontend/src/app/reports/page.tsx`:
`report.status === "draft" ? <Submit button> : null`. -/
def showSubmitButton (report : Report) : Bool :=
  report.status == ReportStatus.draft

/-- C4.  `dispatch` on a Report in `draft` or `pending_approval` fails with
`InvalidStateTransition` (for any recipient count), and the admin dispatch
panel's approved-reports list contains exactly the reports whose status is
`approved` — the only reports its Queue Dispatch button can act on. -/
theorem C4_dispatch_only_approved (recipientCount : Nat) (reports : List Report) :
    dispatchTransition recipientCount .draft = .error .invalidStateTransition ∧
    dispatchTransition recipientCount .pending_approval = .error .invalidStateTransition ∧
    (∀ r : Report, r ∈ approvedReports reports ↔ r ∈ reports ∧ r.status = .approved) := by
  refine ⟨rfl, rfl, ?_⟩
  intro r
  simp [approvedReports, List.mem_filter]

/-- C5.  `submit` moves a draft Report to `pending_approval`, fails with
`InvalidStateTransition` from every other status, and the Reports page
renders the Submit action exactly for reports whose status is `draft`. -/
theorem C5_submit_draft_only (status : ReportStatus) (report : Report) :
    submitTransition .draft = .ok .pending_approval ∧
    (status ≠ .draft → submitTransition status = .error .invalidStateTransition) ∧
    (showSubmitButton report = true ↔ report.status = .draft) := by
  refine ⟨rfl, ?_, ?_⟩
  · intro h
    cases status <;> first | exact absurd rfl h | rfl
  · simp [showSubmitButton]

/-- A concrete draft report, used by witnesses. -/
def sampleDraftReport : Report :=
  { id := 9, title := "APAC Weekly Risk Brief", summary := none, pdf_path := none,
    status := .draft, created_by := 1, approved_by := none,
    geographic_scope := some "Thailand", date_range_start := none,
    date_range_end := none, created_at := "2024-01-01" }

/-- C5, witness: the theorem applied at the concrete status `approved` and the
concrete `sampleDraftReport`, discharging the non-draft hypothesis there. -/
theorem C5_submit_draft_only_witness :
    submitTransition .approved = .error .invalidStateTransition ∧
      (showSubmitButton sampleDraftReport = true ↔ sampleDraftReport.status = .draft) :=
  ⟨(C5_submit_draft_only .approved sampleDraftReport).2.1 (by decide),
   (C5_submit_draft_only .approved sampleDraftReport).2.2⟩

/-! ### CSV subscriber import (claim C2, spec-modelled backend) -/

/-- Embeds the `CsvImportResult` interface from the shared type definitions. -/
structure CsvImportResult where
  total_rows : Nat
  imported_count : Nat
  skipped_count : Nat
  invalid_rows : Nat
deriving DecidableEq

/-- Splits a character list at every occurrence of the separator, keeping
empty segments (the character-level analogue of `String.splitOn` for a
one-character separator). -/
def splitOnChar (sep : Char) : List Char → List (List Char)
  | [] => [[]]
  | c :: cs =>
      if c = sep then [] :: splitOnChar sep cs
      else
        match splitOnChar sep cs with
        | [] => [[c]]
        | seg :: segs => (c :: seg) :: segs

/-- Modelled from the spec: a minimal email format validator for the CSV
subscriber import contract (§6); the backend's exact format check is not under src/, so
the partition theorem is stated for an arbitrary validator and this concrete
one is used only for the spec's worked example.  An address is well-formed
when it splits as `user@domain` with both parts nonempty and a dot in the
domain. -/
def validEmailModel (email : String) : Bool :=
  match splitOnChar '@' email.data with
  | [userPart, domainPart] =>
      !userPart.isEmpty && !domainPart.isEmpty && domainPart.contains '.'
  | _ => false

/-- Modelled from the spec: the row-by-row classification of the backend CSV
subscriber import (§6), which is not under src/.  "a row is invalid if the
email fails format validation, skipped if it is a valid but duplicate email
already in the list, imported otherwise"; an imported email joins the list,
so a later repetition of it in the same file is skipped as a duplicate. -/
def csvImportResult (valid : String → Bool) (existing : List String) :
    List String → CsvImportResult
  | [] => ⟨0, 0, 0, 0⟩
  | email :: rest =>
      if valid email = false then
        let r := csvImportResult valid existing rest
        { r with total_rows := r.total_rows + 1, invalid_rows := r.invalid_rows + 1 }
      else if existing.contains email then
        let r := csvImportResult valid existing rest
        { r with total_rows := r.total_rows + 1, skipped_count := r.skipped_count + 1 }
      else
        let r := csvImportResult valid (email :: existing) rest
        { r with total_rows := r.total_rows + 1, imported_count := r.imported_count + 1 }

/-- The spec's worked example: ten rows of which two are malformed and one
duplicates a subscriber already in the list. -/
def csvExampleRows : List String :=
  ["alice@example.com", "bob@example.com", "not-an-email",
   "carol@example.com", "ops@example.com", "dave@example.com",
   "erin@example.com", "bad@nodot", "frank@example.com", "grace@example.com"]

theorem csvImportResult_total (valid : String → Bool) (existing rows : List String) :
    (csvImportResult valid existing rows).total_rows = rows.length := by
  induction rows generalizing existing with
  | nil => rfl
  | cons email rest ih =>
      simp only [csvImportResult]
      split
      · simpa using ih existing
      · split
        · simpa using ih existing
        · simpa using ih (email :: existing)

/-- C2.  Every CSV import partitions its rows: `total_rows` counts the input
rows, each row is counted exactly once as imported, skipped, or invalid, so
the three counts sum to `total_rows` for every validator, pre-existing
subscriber list and row sequence; and the spec's worked example — 10 rows, 2
malformed emails, 1 duplicate of an existing subscriber — yields
`{total_rows := 10, imported_count := 7, skipped_count := 1, invalid_rows := 2}`. -/
theorem C2_csv_import_partition (valid : String → Bool) (existing rows : List String) :
    (csvImportResult valid existing rows).total_rows = rows.length ∧
    (csvImportResult valid existing rows).imported_count +
        (csvImportResult valid existing rows).skipped_count +
        (csvImportResult valid existing rows).invalid_rows =
      (csvImportResult valid existing rows).total_rows ∧
    csvImportResult validEmailModel ["ops@example.com"] csvExampleRows =
      { total_rows := 10, imported_count := 7, skipped_count := 1, invalid_rows := 2 } := by
  refine ⟨csvImportResult_total valid existing rows, ?_, ?_⟩
  · induction rows generalizing existing with
    | nil => rfl
    | cons email rest ih =>
        simp only [csvImportResult]
        split
        · have h := ih existing
          simp only []
          omega
        · split
          · have h := ih existing
            simp only []
            omega
          · have h := ih (email :: existing)
            simp only []
            omega
  · decide

/-! ### Geographic dispatch matching (claim C3) -/

/-- Embeds the `MailingList` interface from the shared type definitions. -/
structure MailingList where
  id : Nat
  name : String
  geographic_regions : List String
  description : Option String
  created_by : Nat
  created_at : String
  subscriber_count : Nat
deriving DecidableEq

/-- Embeds the dispatch request body built by `handleDispatch` in
`src/frontend/src/app/admin/page.tsx`. -/
structure DispatchRequestBody where
  mailing_list_ids : List Nat
  use_geographic_match : Bool
deriving DecidableEq

/-- Embeds the body construction of `handleDispatch`
(`src/frontend/src/app/admin/page.tsx`):
`mailing_list_ids: dispatchSelection[reportId] ?? []` and
`use_geographic_match: useGeoMatch[reportId] ?? true`.  The two
`Record<number, _>` state objects become functions to `Option`; a key never
touched by the admin maps to `none`. -/
def dispatchBody (dispatchSelection : Nat → Option (List Nat))
    (useGeoMatch : Nat → Option Bool) (reportId : Nat) : DispatchRequestBody :=
  { mailing_list_ids := (dispatchSelection reportId).getD []
    use_geographic_match := (useGeoMatch reportId).getD true }

/-- Modelled from the spec: the backend Geographic Dispatch Matcher (§4.6) is
not under src/.  "a list matches if `geographic_scope` is Global, or if any
entry in the list's `geographic_regions` case-insensitively equals or is a
substring-token match of the scope, or if explicit mailing-list IDs were
supplied by the caller"; the automatic (scope-based) part applies only when
the request enables geographic matching. -/
def listMatches (useGeo : Bool) (explicitIds : List Nat) (scope : String)
    (l : MailingList) : Bool :=
  explicitIds.contains l.id ||
    (useGeo &&
      (scope.toLower == "global" ||
        l.geographic_regions.any (fun r =>
          r.toLower == scope.toLower ||
            ((scope.toLower.splitOn " ").contains r.toLower))))

/-- Modelled from the spec: the set of target mailing lists computed for one
dispatch, as the lists satisfying `listMatches`. -/
def computeTargetLists (explicitIds : List Nat) (useGeo : Bool) (scope : String)
    (lists : List MailingList) : List MailingList :=
  lists.filter (listMatches useGeo explicitIds scope)

/-- C3, counterexample.  The claim says automatic geographic matching is not
applied by default, absent an explicit request.  But in the admin dispatch
panel's initial state — no checkbox touched, both `Record` states empty — the
request body built for report 7 already carries
`use_geographic_match = true` (`useGeoMatch[reportId] ?? true`), so automatic
matching is requested by default. -/
theorem C3_geo_default_counterexample :
    ¬ ((dispatchBody (fun _ => none) (fun _ => none) 7).use_geographic_match = false) := by
  decide

/-- C3, amended.  Explicitly selected mailing-list IDs are always dispatch
targets, whatever the geographic-match flag says; with the flag off the
targets are exactly the explicitly selected lists; and the admin panel sends
exactly the explicit selection (defaulting to no lists) together with a
`use_geographic_match` flag that defaults to `true` — automatic matching is
on by default and is suppressed only by unchecking the box. -/
theorem C3_explicit_overrides_geo (dispatchSelection : Nat → Option (List Nat))
    (useGeoMatch : Nat → Option Bool) (reportId : Nat)
    (explicitIds : List Nat) (useGeo : Bool) (scope : String)
    (lists : List MailingList) (l : MailingList) :
    (dispatchBody dispatchSelection useGeoMatch reportId).mailing_list_ids =
        (dispatchSelection reportId).getD [] ∧
    (dispatchBody dispatchSelection useGeoMatch reportId).use_geographic_match =
        (useGeoMatch reportId).getD true ∧
    (l ∈ lists → l.id ∈ explicitIds →
      l ∈ computeTargetLists explicitIds useGeo scope lists) ∧
    (l ∈ computeTargetLists explicitIds false scope lists ↔
      l ∈ lists ∧ l.id ∈ explicitIds) := by
  refine ⟨rfl, rfl, ?_, ?_⟩
  · intro hmem hid
    simp only [computeTargetLists, List.mem_filter]
    refine ⟨hmem, ?_⟩
    simp [listMatches, hid]
  · simp [computeTargetLists, List.mem_filter, listMatches]

/-- A concrete mailing list used by witnesses. -/
def sampleList : MailingList :=
  { id := 3, name := "Thailand Ops", geographic_regions := ["Thailand"],
    description := none, created_by := 1, created_at := "2024-01-01",
    subscriber_count := 12 }

/-- C3, witness: the amended theorem applied at a concrete explicit selection
containing `sampleList`, discharging both membership hypotheses there. -/
theorem C3_explicit_overrides_geo_witness :
    sampleList ∈ computeTargetLists [3] false "Vietnam" [sampleList] :=
  (C3_explicit_overrides_geo (fun _ => none) (fun _ => none) 7 [3] false
      "Vietnam" [sampleList] sampleList).2.2.1
    (by decide) (by decide)

/-! ### Realtime change-notification contract (claim C8) -/

/-- A change event as carried on the realtime channel; only its `type` tag is
inspected by the embedded code. -/
structure ChangeEvent where
  type : String
deriving DecidableEq

/-- The handler registry of `WebSocketClient`
(`src/frontend/src/lib/alert-utils.ts`): handlers keyed by event type.
Handlers are identified by an opaque `Nat` tag; the `Map<string, Set<_>>` is
flattened to a list of (event type, handler) pairs in registration order. -/
abbrev HandlerRegistry := List (String × Nat)

/-- Embeds `WebSocketClient.on`: registers one handler under one event type. -/
def wsOn (registry : HandlerRegistry) (eventType : String) (handler : Nat) :
    HandlerRegistry :=
  registry ++ [(eventType, handler)]

/-- Embeds the `onmessage` dispatch of `WebSocketClient`: a parsed message's
`type` selects `handlers.get(eventType)` and every handler in that set runs.
Returns the handlers invoked for one incoming message. -/
def dispatchMessage (registry : HandlerRegistry) (msgType : String) : List Nat :=
  (registry.filter (fun p => p.1 == msgType)).map (fun p => p.2)

/-- Embeds the subscription made by `useAlertsRealtime`
(src/unnamed/part_005): starting from a fresh client, exactly one handler —
the data-refresh callback — is registered, under exactly the event type
`"alerts_updated"`. -/
def realtimeRegistry (refreshHandler : Nat) : HandlerRegistry :=
  wsOn [] "alerts_updated" refreshHandler

/-- Modelled from the spec: the backend Persistence & Diff step (§4.5) is not
under src/.  It "emits exactly one change notification per affected Alert per
cycle (coalesced, not one per Candidate)", each being `{type: "alerts_updated"}`. -/
def emitChangeEvents (affectedAlertIds : List Nat) : List ChangeEvent :=
  affectedAlertIds.map (fun _ => { type := "alerts_updated" })

/-- C8.  One emission cycle produces exactly one event per affected Alert,
every emitted event carries the type `"alerts_updated"`, and the frontend
realtime client — subscribed by `useAlertsRealtime` — runs its refresh
callback exactly once for a message of that type and never for any other
type. -/
theorem C8_realtime_contract (refreshHandler : Nat) (msgType : String)
    (affectedAlertIds : List Nat) :
    (emitChangeEvents affectedAlertIds).length = affectedAlertIds.length ∧
    (emitChangeEvents affectedAlertIds).all (fun e => e.type == "alerts_updated") = true ∧
    dispatchMessage (realtimeRegistry refreshHandler) msgType =
      (if msgType = "alerts_updated" then [refreshHandler] else []) := by
  refine ⟨by simp [emitChangeEvents], by simp [emitChangeEvents], ?_⟩
  by_cases h : msgType = "alerts_updated"
  · subst h
    simp [dispatchMessage, realtimeRegistry, wsOn]
  · simp only [dispatchMessage, realtimeRegistry, wsOn, List.nil_append]
    rw [if_neg h]
    have : ("alerts_updated" == msgType) = false := by
      simpa [beq_iff_eq] using fun hh => h hh.symm
    simp [this]

/-! ### The API client's query-string builder (claim C9) -/

/-- A value passed to `toQueryString`: the TS signature admits
`string | number | undefined`; `undefined` is the surrounding `Option`. -/
inductive ParamValue
  | str (s : String)
  | num (n : Int)
deriving DecidableEq

/-- Whitespace as stripped by JS `String.prototype.trim` (restricted to the
ASCII whitespace characters relevant here). -/
def isJsWhitespace (c : Char) : Bool :=
  c = ' ' || c = '\t' || c = '\n' || c = '\r'

/-- The character content of `value.trim()` for a JS string. -/
def jsTrim (s : String) : List Char :=
  ((s.data.dropWhile isJsWhitespace).reverse.dropWhile isJsWhitespace).reverse

/-- Embeds `ApiClient.toQueryString` from `src/frontend/src/lib/api.ts`: an
entry with an `undefined` value is skipped, an entry whose string value trims
to the empty string is skipped (`value.trim().length === 0`), every other
entry is rendered as `key=String(value)`.  All call sites pass
pairwise-distinct keys, so `URLSearchParams.set` appends in iteration
order. -/
def toQueryString (params : List (String × Option ParamValue)) : String :=
  let parts := params.filterMap (fun p =>
    match p.2 with
    | none => none
    | some (.str s) =>
        if (jsTrim s).length = 0 then none else some (p.1 ++ "=" ++ s)
    | some (.num n) => some (p.1 ++ "=" ++ toString n))
  if parts.isEmpty then "" else "?" ++ String.intercalate "&" parts

/-- Embeds `AlertSortBy` from the shared type definitions. -/
inductive AlertSortBy
  | created_at
  | severity
deriving DecidableEq

/-- Embeds `SortOrder` from the shared type definitions. -/
inductive SortOrder
  | asc
  | desc
deriving DecidableEq

/-- The wire name of an alert category. -/
def categoryStr : AlertCategory → String
  | .natural_disaster => "natural_disaster"
  | .political => "political"
  | .crime => "crime"
  | .health => "health"
  | .terrorism => "terrorism"
  | .civil_unrest => "civil_unrest"

/-- The wire name of a sort key. -/
def sortByStr : AlertSortBy → String
  | .created_at => "created_at"
  | .severity => "severity"

/-- The wire name of a sort order. -/
def sortOrderStr : SortOrder → String
  | .asc => "asc"
  | .desc => "desc"

/-- Embeds `AlertQueryParams` from the shared type definitions; every field
is optional. -/
structure AlertQueryParams where
  category : Option AlertCategory
  severity_min : Option Int
  severity_max : Option Int
  country : Option String
  region : Option String
  start_date : Option String
  end_date : Option String
  search : Option String
  sort_by : Option AlertSortBy
  sort_order : Option SortOrder
  page : Option Int
  page_size : Option Int
deriving DecidableEq

/-- The all-absent query, `api.getAlerts({})`. -/
def emptyAlertQuery : AlertQueryParams :=
  ⟨none, none, none, none, none, none, none, none, none, none, none, none⟩

/-- Embeds the query string built by `ApiClient.getAlerts`
(`src/frontend/src/lib/api.ts`): the fixed twelve-key parameter map handed to
`toQueryString`. -/
def getAlertsQuery (params : AlertQueryParams) : String :=
  toQueryString
    [("category", params.category.map (fun c => ParamValue.str (categoryStr c))),
     ("severity_min", params.severity_min.map ParamValue.num),
     ("severity_max", params.severity_max.map ParamValue.num),
     ("country", params.country.map ParamValue.str),
     ("region", params.region.map ParamValue.str),
     ("start_date", params.start_date.map ParamValue.str),
     ("end_date", params.end_date.map ParamValue.str),
     ("search", params.search.map ParamValue.str),
     ("sort_by", params.sort_by.map (fun s => ParamValue.str (sortByStr s))),
     ("sort_order", params.sort_order.map (fun s => ParamValue.str (sortOrderStr s))),
     ("page", params.page.map ParamValue.num),
     ("page_size", params.page_size.map ParamValue.num)]

/-- C9.  The query-string builder omits a key whose value is undefined, and a
key whose string value is empty or whitespace-only, leaving the rest of the
query untouched; consequently `getAlerts` produces the same query string for
a blank `country` filter as for an absent one. -/
theorem toQueryString_blank_entry (ps qs : List (String × Option ParamValue))
    (key s : String) (h : jsTrim s = []) :
    toQueryString (ps ++ (key, some (ParamValue.str s)) :: qs) =
      toQueryString (ps ++ (key, (none : Option ParamValue)) :: qs) := by
  simp only [toQueryString, List.filterMap_append, List.filterMap_cons, h]
  simp

theorem toQueryString_none_entry (ps qs : List (String × Option ParamValue))
    (key : String) :
    toQueryString (ps ++ (key, (none : Option ParamValue)) :: qs) =
      toQueryString (ps ++ qs) := by
  simp only [toQueryString, List.filterMap_append, List.filterMap_cons]

theorem C9_blank_params_omitted (ps qs : List (String × Option ParamValue))
    (key s : String) (params : AlertQueryParams) :
    (jsTrim s = [] →
      toQueryString (ps ++ (key, some (ParamValue.str s)) :: qs) =
        toQueryString (ps ++ (key, (none : Option ParamValue)) :: qs)) ∧
    toQueryString (ps ++ (key, (none : Option ParamValue)) :: qs) =
      toQueryString (ps ++ qs) ∧
    (jsTrim s = [] →
      getAlertsQuery { params with country := some s } =
        getAlertsQuery { params with country := none }) := by
  refine ⟨fun h => toQueryString_blank_entry ps qs key s h,
    toQueryString_none_entry ps qs key, fun h => ?_⟩
  exact toQueryString_blank_entry
    [("category", params.category.map (fun c => ParamValue.str (categoryStr c))),
     ("severity_min", params.severity_min.map ParamValue.num),
     ("severity_max", params.severity_max.map ParamValue.num)]
    [("region", params.region.map ParamValue.str),
     ("start_date", params.start_date.map ParamValue.str),
     ("end_date", params.end_date.map ParamValue.str),
     ("search", params.search.map ParamValue.str),
     ("sort_by", params.sort_by.map (fun x => ParamValue.str (sortByStr x))),
     ("sort_order", params.sort_order.map (fun x => ParamValue.str (sortOrderStr x))),
     ("page", params.page.map ParamValue.num),
     ("page_size", params.page_size.map ParamValue.num)]
    "country" s h

/-- C9, witness: the theorem applied to a concrete parameter list and the
concrete whitespace-only value `"  "`, discharging the blankness hypotheses
there. -/
theorem C9_blank_params_omitted_witness :
    toQueryString [("page", some (ParamValue.num 1)), ("country", some (ParamValue.str "  "))] =
      toQueryString [("page", some (ParamValue.num 1)), ("country", (none : Option ParamValue))] ∧
    getAlertsQuery { emptyAlertQuery with country := some "  " } =
      getAlertsQuery { emptyAlertQuery with country := none } :=
  ⟨(C9_blank_params_omitted [("page", some (ParamValue.num 1))] [] "country" "  "
        emptyAlertQuery).1 (by decide),
   (C9_blank_params_omitted [("page", some (ParamValue.num 1))] [] "country" "  "
        emptyAlertQuery).2.2 (by decide)⟩

/-! ### WebSocket reconnection behaviour (claim C10) -/

/-- The readyState-relevant condition of the client's underlying socket:
absent, `CONNECTING`, `OPEN`, or closed. -/
inductive SocketState
  | noSocket
  | connecting
  | opened
  | closedSock
deriving DecidableEq

/-- The mutable state of `WebSocketClient`
(`src/frontend/src/lib/alert-utils.ts`).  The reconnect timer is not part of
the state: a pending timer firing is a `connect` event in a trace, and
`disconnect()` clears any pending timer, so no timer-driven `connect` event
can follow a `disconnect` until `connect()` is called again. -/
structure WsClientState where
  reconnectAttempts : Nat
  manuallyDisconnected : Bool
  socket : SocketState
deriving DecidableEq

/-- The client's constants: `maxReconnectAttempts = 5`,
`reconnectDelay = 1000` (milliseconds). -/
def maxReconnectAttempts : Nat := 5

def reconnectDelay : Nat := 1000

/-- The state of a freshly constructed client. -/
def initialWsState : WsClientState :=
  { reconnectAttempts := 0, manuallyDisconnected := false, socket := .noSocket }

/-- Embeds `WebSocketClient.attemptReconnect`: bail out at the attempt cap,
otherwise increment the counter and schedule a reconnect after
`reconnectDelay * 2^(reconnectAttempts - 1)` ms.  Returns the new state and
the scheduled delay, if any. -/
def attemptReconnect (s : WsClientState) : WsClientState × Option Nat :=
  if maxReconnectAttempts ≤ s.reconnectAttempts then (s, none)
  else
    let n := s.reconnectAttempts + 1
    ({ s with reconnectAttempts := n }, some (reconnectDelay * 2 ^ (n - 1)))

/-- The externally visible events of the client.  `connect ok` is a call to
`connect()` (by the app or by a reconnect timer firing); `ok = false` models
the `new WebSocket(...)` constructor throwing, which lands in the `catch`
branch.  `openEv`/`closeEv` are the socket's `onopen`/`onclose` callbacks;
`disconnect` is a call to `disconnect()`. -/
inductive WsEvent
  | connect (ok : Bool)
  | openEv
  | closeEv
  | disconnect
deriving DecidableEq

/-- True exactly on `connect` events. -/
def isConnectEvent : WsEvent → Bool
  | .connect _ => true
  | _ => false

/-- Embeds the event handling of `WebSocketClient`: `connect()` returns early
while a socket is connecting or open, else clears `manuallyDisconnected` and
either creates a socket or (constructor threw) attempts a reconnect;
`onopen` resets the attempt counter; `onclose` attempts a reconnect unless
manually disconnected; `disconnect()` sets the manual flag, clears the
timer, and drops the socket.  Returns the new state and the reconnect delay
scheduled by the event, if any. -/
def wsStep (s : WsClientState) : WsEvent → WsClientState × Option Nat
  | .connect ok =>
      if s.socket = .connecting ∨ s.socket = .opened then (s, none)
      else
        let s1 := { s with manuallyDisconnected := false }
        if ok then ({ s1 with socket := .connecting }, none)
        else attemptReconnect s1
  | .openEv =>
      if s.socket = .connecting then
        ({ s with reconnectAttempts := 0, socket := .opened }, none)
      else (s, none)
  | .closeEv =>
      let s1 := { s with
        socket := if s.socket = .noSocket then .noSocket else .closedSock }
      if s1.manuallyDisconnected then (s1, none) else attemptReconnect s1
  | .disconnect =>
      ({ s with manuallyDisconnected := true, socket := .noSocket }, none)

/-- Runs a trace of events, collecting every scheduled reconnect delay in
order. -/
def wsRun (s : WsClientState) : List WsEvent → WsClientState × List Nat
  | [] => (s, [])
  | e :: rest =>
      let (s1, d) := wsStep s e
      let (s2, ds) := wsRun s1 rest
      (s2, match d with | some x => x :: ds | none => ds)

theorem wsStep_attempts_le (s : WsClientState) (e : WsEvent)
    (h : s.reconnectAttempts ≤ maxReconnectAttempts) :
    (wsStep s e).1.reconnectAttempts ≤ maxReconnectAttempts := by
  cases e <;> simp only [wsStep, attemptReconnect]
  case connect ok =>
    split
    · exact h
    · split
      · exact h
      · split
        · simpa using h
        · simp only [maxReconnectAttempts] at *
          omega
  case openEv =>
    split <;> simp [maxReconnectAttempts]
    · exact h
  case closeEv =>
    split
    · exact h
    · split
      · simpa using h
      · simp only [maxReconnectAttempts] at *
        omega
  case disconnect => exact h

theorem wsStep_attempts_delta (s : WsClientState) (e : WsEvent)
    (hne : e ≠ .openEv) :
    (wsStep s e).1.reconnectAttempts =
      s.reconnectAttempts + (match (wsStep s e).2 with | some _ => 1 | none => 0) := by
  cases e <;> simp only [wsStep, attemptReconnect]
  case connect ok =>
    split
    · simp
    · split
      · simp
      · split
        · simp
        · simp
  case openEv => exact absurd rfl hne
  case closeEv =>
    split
    · simp
    · split
      · simp
      · simp
  case disconnect => simp

theorem wsRun_attempts_no_open (s : WsClientState) (trace : List WsEvent)
    (hno : ∀ e ∈ trace, e ≠ WsEvent.openEv) :
    (wsRun s trace).1.reconnectAttempts =
      s.reconnectAttempts + (wsRun s trace).2.length := by
  induction trace generalizing s with
  | nil => rfl
  | cons e rest ih =>
      have he : e ≠ WsEvent.openEv := hno e (by simp)
      have hrest : ∀ x ∈ rest, x ≠ WsEvent.openEv := fun x hx => hno x (by simp [hx])
      simp only [wsRun]
      have hd := wsStep_attempts_delta s e he
      have hr := ih (wsStep s e).1 hrest
      rcases hstep : (wsStep s e).2 with _ | d <;>
        simp only [hstep] at hd ⊢ <;>
        simp [hr, hd]
      omega

theorem wsRun_attempts_le (s : WsClientState) (trace : List WsEvent)
    (h : s.reconnectAttempts ≤ maxReconnectAttempts) :
    (wsRun s trace).1.reconnectAttempts ≤ maxReconnectAttempts := by
  induction trace generalizing s with
  | nil => exact h
  | cons e rest ih =>
      simp only [wsRun]
      exact ih (wsStep s e).1 (wsStep_attempts_le s e h)

theorem wsStep_manual_silent (s : WsClientState) (e : WsEvent)
    (hm : s.manuallyDisconnected = true) (hne : isConnectEvent e = false) :
    (wsStep s e).1.manuallyDisconnected = true ∧ (wsStep s e).2 = none := by
  cases e <;> simp only [wsStep]
  case connect ok => simp [isConnectEvent] at hne
  case openEv =>
    split <;> simp [hm]
  case closeEv =>
    simp [hm]
  case disconnect => simp

/-- C10.  The reconnect loop of the WebSocket client:
(i) a run starting from a fresh attempt counter and containing no successful
open schedules at most `maxReconnectAttempts = 5` reconnects;
(ii) whenever a reconnect is scheduled it is attempt `n = old counter + 1`,
with delay exactly `reconnectDelay * 2^(n-1)` ms;
(iii) a successful open of a connecting socket resets the attempt counter to
0; and
(iv) after an explicit `disconnect()`, no reconnect is ever scheduled by any
subsequent events until `connect()` is called again. -/
theorem C10_ws_reconnect (s : WsClientState) (trace : List WsEvent) :
    (s.reconnectAttempts = 0 → (∀ e ∈ trace, e ≠ WsEvent.openEv) →
      (wsRun s trace).2.length ≤ maxReconnectAttempts) ∧
    (s.reconnectAttempts < maxReconnectAttempts →
      attemptReconnect s =
        ({ s with reconnectAttempts := s.reconnectAttempts + 1 },
          some (reconnectDelay * 2 ^ s.reconnectAttempts))) ∧
    (s.socket = .connecting → (wsStep s .openEv).1.reconnectAttempts = 0) ∧
    ((∀ e ∈ trace, isConnectEvent e = false) →
      (wsRun (wsStep s .disconnect).1 trace).2 = []) := by
  refine ⟨?_, ?_, ?_, ?_⟩
  · intro h0 hno
    have hlen := wsRun_attempts_no_open s trace hno
    have hle := wsRun_attempts_le s trace (by rw [h0]; exact Nat.zero_le _)
    omega
  · intro hlt
    simp only [attemptReconnect]
    rw [if_neg (by omega)]
    simp
  · intro hsock
    simp [wsStep, hsock]
  · intro hnc
    have hm : (wsStep s .disconnect).1.manuallyDisconnected = true := by
      simp [wsStep]
    generalize (wsStep s .disconnect).1 = t at hm
    induction trace generalizing t with
    | nil => rfl
    | cons e rest ih =>
        have he := hnc e (by simp)
        have hrest : ∀ x ∈ rest, isConnectEvent x = false := fun x hx => hnc x (by simp [hx])
        obtain ⟨hm1, hd1⟩ := wsStep_manual_silent t e hm he
        simp only [wsRun, hd1]
        exact ih hrest (wsStep t e).1 hm1

/-- C10, witness: the theorem applied to the fresh client state, to the
concrete open-free trace "connect succeeds, unexpected close, another close",
and to the concrete connect-free trace "two closes after an explicit
disconnect", discharging every hypothesis at those inputs. -/
theorem C10_ws_reconnect_witness :
    (wsRun initialWsState
        [WsEvent.connect true, WsEvent.closeEv, WsEvent.closeEv]).2.length ≤
      maxReconnectAttempts ∧
    attemptReconnect initialWsState =
      ({ initialWsState with reconnectAttempts := 1 }, some 1000) ∧
    (wsRun (wsStep initialWsState .disconnect).1 [WsEvent.closeEv, WsEvent.closeEv]).2 = [] := by
  refine ⟨?_, ?_, ?_⟩
  · exact (C10_ws_reconnect initialWsState
      [WsEvent.connect true, WsEvent.closeEv, WsEvent.closeEv]).1 (by decide) (by decide)
  · have h := (C10_ws_reconnect initialWsState []).2.1 (by decide)
    simpa using h
  · exact (C10_ws_reconnect initialWsState [WsEvent.closeEv, WsEvent.closeEv]).2.2.2
      (by decide)

end RiskAlerts
